import Mathlib

/-!
Shallow embedding of `azure-jwt-async` (`src/lib.rs`): the `AzureAuth`
key-cache + validation orchestrator, with network fetches, JWT header
decoding, base64 decoding and cryptographic claim verification modelled
as external oracles (they are delegated collaborators in the source).
Time is modelled in whole seconds (`Int`); `chrono::Duration::hours(h)`
becomes `3600 * h`.
-/

namespace AzureJwt

/-- Modelled from the spec: `src/error.rs` (declaring `AuthErr`) is not among
the sources; only `mod error; pub use error::AuthErr;` and the uses in
`lib.rs` are visible.  Variants follow the constructors used in `lib.rs`
(`AuthErr::Other`, `AuthErr::ParseError`) and the error kinds the spec lists
for the conversions the `?` operator applies to `jsonwebtoken` and `reqwest`
errors. -/
inductive AuthErr where
  | ParseError (msg : String)
  | JwtError (msg : String)
  | ConnectionError (msg : String)
  | Other (msg : String)
deriving DecidableEq, Repr

/-- The `jsonwebtoken::Algorithm` enum (the source pins `Algorithm::RS256`). -/
inductive Alg where
  | HS256 | HS384 | HS512
  | RS256 | RS384 | RS512
  | ES256 | ES384
deriving DecidableEq, Repr

/-- The fields of `jsonwebtoken::Header` that `validate_token_authenticity`
reads from the result of `jwt::decode_header`: `alg` and `kid`. -/
structure JwtHeader where
  alg : Alg
  kid : Option String
deriving DecidableEq, Repr

/-- Rust `struct KeyPairs { x5t: String, x5c: Vec<String> }`. -/
structure KeyPairs where
  x5t : String
  x5c : List String
deriving DecidableEq, Repr

/-- Rust `struct Keys { keys: Vec<KeyPairs> }` — the parsed JWKS document. -/
structure Keys where
  keys : List KeyPairs
deriving DecidableEq, Repr

/-- Rust `struct AzureJwtClaims` — the default claims shape (u64 timestamps as
`Nat`). -/
structure AzureJwtClaims where
  aud : String
  azp : Option String
  azpacr : Option String
  iss : String
  iat : Nat
  idp : Option String
  nbf : Nat
  exp : Nat
  c_hash : Option String
  at_hash : Option String
  preferred_username : String
  name : Option String
  nonce : Option String
  oid : String
  roles : Option (List String)
  scp : Option String
  sub : String
  tid : String
  unique_name : Option String
  ver : String
deriving DecidableEq, Repr

/-- Rust `struct AzureAuth` — the validator state.  `last_refresh` is a timestamp
in seconds (`Option NaiveDateTime` in the source). -/
structure AzureAuth where
  aud_to_val : String
  jwks_uri : String
  public_keys : Option (List KeyPairs)
  last_refresh : Option Int
  exp_hours : Int
  retry_counter : Nat
  retry_option : Bool
  is_offline : Bool
deriving DecidableEq, Repr

/-- The network environment: `fetch n` is the outcome of the `n`-th JWKS
request `refresh_pub_keys` makes (`reqwest::get` + `.json()` combined), and
`b64decode` models `base64::decode_config` (used by
`from_base64_to_bytearray`). -/
structure Env where
  fetch : Nat → Except AuthErr Keys
  b64decode : String → Except AuthErr (List Nat)

/-- Everything determined by the token string: the outcome of
`jwt::decode_header(token)` and the outcome of
`jwt::decode::<AzureJwtClaims>(token, key_bytes, default_validator)` for the
default validator built by `validate_token` (RS256, leeway 60, audience). -/
structure TokenOracle where
  header : Except AuthErr JwtHeader
  decodeDefault : List Nat → Except AuthErr AzureJwtClaims

/-- Outcome of a validation call: success, typed error, or a Rust panic
(`unreachable!()` / slice index out of bounds). -/
inductive VRes (T : Type) where
  | ok : T → VRes T
  | err : AuthErr → VRes T
  | panic : String → VRes T
deriving DecidableEq, Repr

/-- Constructor `AzureAuth::new(aud)`: fetch `jwks_uri` from the discovery document
(modelled as the `jwks_fetch` outcome), then build the default state. -/
def new (aud : String) (jwks_fetch : Except AuthErr String) :
    Except AuthErr AzureAuth :=
  match jwks_fetch with
  | .error e => .error e
  | .ok uri => .ok
      { aud_to_val := aud
        jwks_uri := uri
        public_keys := none
        last_refresh := none
        exp_hours := 24
        retry_counter := 0
        retry_option := true
        is_offline := false }

/-- Constructor `AzureAuth::new_offline(aud, public_keys)` (called at time `now`). -/
def new_offline (aud : String) (jwks_fetch : Except AuthErr String)
    (public_keys : List KeyPairs) (now : Int) : Except AuthErr AzureAuth :=
  match jwks_fetch with
  | .error e => .error e
  | .ok uri => .ok
      { aud_to_val := aud
        jwks_uri := uri
        public_keys := some public_keys
        last_refresh := some now
        exp_hours := 24
        retry_counter := 0
        retry_option := true
        is_offline := true }

/-- Setter `set_expiration(hours)`. -/
def set_expiration (s : AzureAuth) (hours : Int) : AzureAuth :=
  { s with exp_hours := hours }

/-- Setter `set_no_retry()`. -/
def set_no_retry (s : AzureAuth) : AzureAuth :=
  { s with retry_option := false }

/-- Setter `set_public_keys(pub_keys)` (called at time `now`). -/
def set_public_keys (s : AzureAuth) (pub_keys : List KeyPairs) (now : Int) :
    AzureAuth :=
  { s with last_refresh := some now, public_keys := some pub_keys }

/-- Freshness check `is_keys_valid()`: `now - dt <= Duration::hours(exp_hours)`. -/
def is_keys_valid (s : AzureAuth) (now : Int) : Bool :=
  match s.last_refresh with
  | none => false
  | some dt => now - dt ≤ 3600 * s.exp_hours

/-- Retry policy `should_retry()`: never when offline; otherwise requires a previous
refresh timestamp, `retry_counter == 0`, and more than one hour elapsed.
(The source never consults `retry_option` here.) -/
def should_retry (s : AzureAuth) (now : Int) : Bool :=
  if s.is_offline then
    false
  else
    match s.last_refresh with
    | some lr => s.retry_counter == 0 && decide (now - lr > 3600)
    | none => false

/-- Key lookup `keys.iter().find(|k| k.x5t == *kid)`. -/
def matchKey (keys : List KeyPairs) (kid : String) : Option KeyPairs :=
  keys.find? (fun k => k.x5t == kid)

/-- Refresh `refresh_pub_keys()`: one network fetch (the `fc`-th), and only on full
success are `last_refresh` and `public_keys` assigned.  Returns the
post-call state, the `Result`, and the new fetch count. -/
def refresh_pub_keys (env : Env) (s : AzureAuth) (now : Int) (fc : Nat) :
    AzureAuth × Except AuthErr Unit × Nat :=
  match env.fetch fc with
  | .error e => (s, .error e, fc + 1)
  | .ok resp =>
      ({ s with last_refresh := some now, public_keys := some resp.keys },
       .ok (), fc + 1)

/-- The part of `validate_token_authenticity::<T>` after the staleness
refresh: `decode_header`, the `let key = match` block (missing-keys and
missing-`kid` errors, then `find`), the RS256 pin, then the miss/hit match,
the `x5c[0]` base64 decode and `jwt::decode`.  `decode` is the `jwt::decode`
oracle for the validator the caller supplied; `cont` is the retry
continuation (the recursive `self.validate_token(token)` call of the
source). -/
def validate_rest {T : Type} (env : Env) (tok : TokenOracle)
    (decode : List Nat → Except AuthErr T) (s1 : AzureAuth) (now : Int)
    (fc1 : Nat)
    (cont : AzureAuth → Nat → VRes AzureJwtClaims × AzureAuth × Nat) :
    VRes T × AzureAuth × Nat :=
  match tok.header with
  | .error e => (.err e, s1, fc1)
  | .ok decoded =>
    let keyLookup : Except AuthErr (Option KeyPairs) :=
      match s1.public_keys with
      | none => .error (.Other "Internal err. No public keys found.")
      | some keys =>
        match decoded.kid with
        | none => .error (.Other "No `kid` in token.")
        | some kid => .ok (matchKey keys kid)
    match keyLookup with
    | .error e => (.err e, s1, fc1)
    | .ok key =>
      if decoded.alg ≠ Alg.RS256 then
        (.err (.Other "Invalid token. Invalid algorithm in header."),
         s1, fc1)
      else
        match key with
        | none =>
          if should_retry s1 now then
            match refresh_pub_keys env s1 now fc1 with
            | (s2, .error e, fc2) => (.err e, s2, fc2)
            | (s2, .ok (), fc2) =>
              let s3 := { s2 with retry_counter := s2.retry_counter + 1 }
              match cont s3 fc2 with
              | (.ok _, s4, fc3) =>
                  (.panic "internal error: entered unreachable code",
                   s4, fc3)
              | (.err e, s4, fc3) => (.err e, s4, fc3)
              | (.panic m, s4, fc3) => (.panic m, s4, fc3)
          else
            (.err (.Other "Invalid token. Could not verify authenticity."),
             { s1 with retry_counter := 0 }, fc1)
        | some auth_key =>
          let s2 := { s1 with retry_counter := 0 }
          match auth_key.x5c with
          | [] => (.panic "index out of bounds", s2, fc1)
          | c :: _ =>
            match env.b64decode c with
            | .error e => (.err e, s2, fc1)
            | .ok bytes =>
              match decode bytes with
              | .error e => (.err e, s2, fc1)
              | .ok claims => (.ok claims, s2, fc1)

/-- The body of `validate_token_authenticity::<T>`: the staleness refresh
(`if !self.is_keys_valid() && !self.is_offline { self.refresh_pub_keys()? }`)
followed by `validate_rest`. -/
def validate_body {T : Type} (env : Env) (tok : TokenOracle)
    (decode : List Nat → Except AuthErr T) (s : AzureAuth) (now : Int)
    (fc : Nat)
    (cont : AzureAuth → Nat → VRes AzureJwtClaims × AzureAuth × Nat) :
    VRes T × AzureAuth × Nat :=
  if !(is_keys_valid s now) && !s.is_offline then
    match refresh_pub_keys env s now fc with
    | (s1, .error e, fc1) => (.err e, s1, fc1)
    | (s1, .ok (), fc1) => validate_rest env tok decode s1 now fc1 cont
  else
    validate_rest env tok decode s now fc cont

/-- Fuelled unfolding of the mutual recursion
`validate_token → validate_token_authenticity → validate_token`.
The recursion depth is semantically at most two: the retry branch requires
`retry_counter == 0` and increments it before recursing, and the inner call
also starts from `last_refresh = now`; so fuel `2` realises
`validate_token`. -/
def validate_aux : Nat → Env → TokenOracle → AzureAuth → Int → Nat →
    VRes AzureJwtClaims × AzureAuth × Nat
  | 0, _, _, s, _, fc => (.panic "out of fuel", s, fc)
  | fuel + 1, env, tok, s, now, fc =>
      validate_body env tok tok.decodeDefault s now fc
        (fun s' fc' => validate_aux fuel env tok s' now fc')

/-- Entry point `validate_token(token)`: the default validator (RS256, leeway 60,
audience) driving `validate_token_authenticity`. -/
def validate_token (env : Env) (tok : TokenOracle) (s : AzureAuth)
    (now : Int) (fc : Nat) : VRes AzureJwtClaims × AzureAuth × Nat :=
  validate_aux 2 env tok s now fc

/-- Entry point `validate_custom::<T>(token, validator)`: the `jwt::decode` oracle
supplied by the caller, with the retry branch still recursing into the
default `validate_token` (as the source does). -/
def validate_custom {T : Type} (env : Env) (tok : TokenOracle)
    (decode : List Nat → Except AuthErr T) (s : AzureAuth) (now : Int)
    (fc : Nat) : VRes T × AzureAuth × Nat :=
  validate_body env tok decode s now fc
    (fun s' fc' => validate_token env tok s' now fc')

/-! Concrete fixtures used by the counterexamples and witnesses. -/

/-- A key record with thumbprint `"A"`. -/
def keyA : KeyPairs := { x5t := "A", x5c := ["certA"] }

/-- A concrete default-claims value for the decode oracle. -/
def sampleClaims : AzureJwtClaims :=
  { aud := "6e74172b", azp := none, azpacr := none, iss := "iss", iat := 10
    idp := none, nbf := 10, exp := 99, c_hash := none, at_hash := none
    preferred_username := "abeli", name := none, nonce := none, oid := "oid"
    roles := none, scp := none, sub := "sub", tid := "tid"
    unique_name := none, ver := "2.0" }

/-- Environment whose JWKS endpoint always returns `[keyA]`. -/
def envA : Env :=
  { fetch := fun _ => .ok ⟨[keyA]⟩, b64decode := fun _ => .ok [1] }

/-- Environment whose JWKS endpoint is down. -/
def envDown : Env :=
  { fetch := fun _ => .error (.ConnectionError "connection refused")
    b64decode := fun _ => .ok [1] }

/-- A well-formed RS256 token naming key `"A"`, which the default validator
accepts. -/
def tokA : TokenOracle :=
  { header := .ok { alg := .RS256, kid := some "A" }
    decodeDefault := fun _ => .ok sampleClaims }

/-- A token whose header declares HS256 and carries no `kid`. -/
def tokHS256NoKid : TokenOracle :=
  { header := .ok { alg := .HS256, kid := none }
    decodeDefault := fun _ => .error (.JwtError "InvalidSignature") }

/-- A validator state: online, retry on, empty key list fetched at time 0,
default 24h expiration. -/
def baseState : AzureAuth :=
  { aud_to_val := "6e74172b", jwks_uri := "uri", public_keys := some []
    last_refresh := some 0, exp_hours := 24, retry_counter := 0
    retry_option := true, is_offline := false }

/-- Like `baseState` but holding `[keyA]`. -/
def stateWithA : AzureAuth := { baseState with public_keys := some [keyA] }

/-- Like `baseState` but offline. -/
def offState : AzureAuth := { baseState with is_offline := true }

/-- A token whose header declares HS256 with an (unknown) `kid` `"Z"`. -/
def tokHS256KidZ : TokenOracle :=
  { header := .ok { alg := .HS256, kid := some "Z" }
    decodeDefault := fun _ => .error (.JwtError "InvalidSignature") }

/-- The cache-consistency invariant: a public key list is stored exactly
when a refresh timestamp is. -/
def Inv (s : AzureAuth) : Prop :=
  s.public_keys.isSome = s.last_refresh.isSome

/-! Helper lemmas about one `validate_token_authenticity` body. -/

theorem validate_rest_fc {T : Type} (env : Env) (tok : TokenOracle)
    (decode : List Nat → Except AuthErr T) (s1 : AzureAuth) (now : Int)
    (fc1 : Nat)
    (cont : AzureAuth → Nat → VRes AzureJwtClaims × AzureAuth × Nat)
    (h2 : should_retry s1 now = false) :
    (validate_rest env tok decode s1 now fc1 cont).2.2 = fc1 := by
  unfold validate_rest
  simp only [h2, Bool.false_eq_true, if_false]
  repeat' split
  all_goals rfl

theorem validate_body_fc_no_refresh {T : Type} (env : Env) (tok : TokenOracle)
    (decode : List Nat → Except AuthErr T) (s : AzureAuth) (now : Int)
    (fc : Nat)
    (cont : AzureAuth → Nat → VRes AzureJwtClaims × AzureAuth × Nat)
    (h1 : (!(is_keys_valid s now) && !s.is_offline) = false)
    (h2 : should_retry s now = false) :
    (validate_body env tok decode s now fc cont).2.2 = fc := by
  unfold validate_body
  simp only [h1, Bool.false_eq_true, if_false]
  exact validate_rest_fc env tok decode s now fc cont h2

theorem should_retry_just_refreshed (s : AzureAuth) (pk : List KeyPairs)
    (now : Int) :
    should_retry { s with last_refresh := some now, public_keys := some pk }
      now = false := by
  have hgt : ¬((3600:Int) < now - now) := by omega
  simp [should_retry, decide_eq_false hgt]

theorem validate_body_fc_stale_online {T : Type} (env : Env)
    (tok : TokenOracle) (decode : List Nat → Except AuthErr T)
    (s : AzureAuth) (now : Int) (fc : Nat)
    (cont : AzureAuth → Nat → VRes AzureJwtClaims × AzureAuth × Nat)
    (h1 : is_keys_valid s now = false) (h2 : s.is_offline = false) :
    (validate_body env tok decode s now fc cont).2.2 = fc + 1 := by
  unfold validate_body
  simp only [h1, h2, Bool.not_false, Bool.and_self, if_true]
  cases hf : env.fetch fc with
  | error e => simp [refresh_pub_keys, hf]
  | ok ks =>
    simp only [refresh_pub_keys, hf]
    exact validate_rest_fc env tok decode _ now (fc + 1) cont
      (should_retry_just_refreshed s ks.keys now)

theorem refresh_inv (env : Env) (s : AzureAuth) (now : Int) (fc : Nat)
    (hs : Inv s) : Inv (refresh_pub_keys env s now fc).1 := by
  unfold refresh_pub_keys
  cases hf : env.fetch fc with
  | error e => simpa using hs
  | ok ks => simp [Inv]

theorem inv_retry_counter (s : AzureAuth) (n : Nat) (hs : Inv s) :
    Inv { s with retry_counter := n } := by
  simpa [Inv] using hs

theorem validate_rest_inv {T : Type} (env : Env) (tok : TokenOracle)
    (decode : List Nat → Except AuthErr T) (s1 : AzureAuth) (now : Int)
    (fc1 : Nat)
    (cont : AzureAuth → Nat → VRes AzureJwtClaims × AzureAuth × Nat)
    (hs : Inv s1)
    (hcont : ∀ s' fc', Inv s' → Inv (cont s' fc').2.1) :
    Inv (validate_rest env tok decode s1 now fc1 cont).2.1 := by
  unfold validate_rest
  rcases hr : refresh_pub_keys env s1 now fc1 with ⟨s2, r2, fc2⟩
  have hs2 : Inv s2 := by
    have h := refresh_inv env s1 now fc1 hs
    rwa [hr] at h
  cases r2 with
  | error e =>
    dsimp only
    repeat' split
    all_goals first
      | exact hs
      | exact hs2
  | ok u =>
    cases u
    dsimp only
    repeat' split
    all_goals first
      | exact hs
      | exact hs2
      | exact inv_retry_counter s1 0 hs
      | (rename_i heq
         have h := hcont { s2 with retry_counter := s2.retry_counter + 1 } fc2
           (inv_retry_counter s2 _ hs2)
         rw [heq] at h
         exact h)

theorem validate_body_inv {T : Type} (env : Env) (tok : TokenOracle)
    (decode : List Nat → Except AuthErr T) (s : AzureAuth) (now : Int)
    (fc : Nat)
    (cont : AzureAuth → Nat → VRes AzureJwtClaims × AzureAuth × Nat)
    (hs : Inv s)
    (hcont : ∀ s' fc', Inv s' → Inv (cont s' fc').2.1) :
    Inv (validate_body env tok decode s now fc cont).2.1 := by
  unfold validate_body
  rcases hr : refresh_pub_keys env s now fc with ⟨s1, r1, fc1⟩
  have hs1 : Inv s1 := by
    have h := refresh_inv env s now fc hs
    rwa [hr] at h
  split
  · cases r1 with
    | error e => exact hs1
    | ok u =>
      cases u
      exact validate_rest_inv env tok decode s1 now fc1 cont hs1 hcont
  · exact validate_rest_inv env tok decode s now fc cont hs hcont

theorem validate_aux_inv (fuel : Nat) (env : Env) (tok : TokenOracle)
    (s : AzureAuth) (now : Int) (fc : Nat) (hs : Inv s) :
    Inv (validate_aux fuel env tok s now fc).2.1 := by
  induction fuel generalizing s fc with
  | zero => exact hs
  | succ n ih =>
      exact validate_body_inv env tok tok.decodeDefault s now fc _ hs
        (fun s' fc' h => ih s' fc' h)

theorem validate_body_no_step1 {T : Type} (env : Env) (tok : TokenOracle)
    (decode : List Nat → Except AuthErr T) (s : AzureAuth) (now : Int)
    (fc : Nat)
    (cont : AzureAuth → Nat → VRes AzureJwtClaims × AzureAuth × Nat)
    (hcond : (!(is_keys_valid s now) && !s.is_offline) = false) :
    validate_body env tok decode s now fc cont
      = validate_rest env tok decode s now fc cont := by
  unfold validate_body
  simp only [hcond, Bool.false_eq_true, if_false]

theorem validate_rest_alg_mismatch {T : Type} (env : Env) (tok : TokenOracle)
    (decode : List Nat → Except AuthErr T) (s1 : AzureAuth) (now : Int)
    (fc1 : Nat)
    (cont : AzureAuth → Nat → VRes AzureJwtClaims × AzureAuth × Nat)
    (hdr : JwtHeader) (kid : String) (keys : List KeyPairs)
    (hhdr : tok.header = .ok hdr) (halg : hdr.alg ≠ .RS256)
    (hkid : hdr.kid = some kid) (hkeys : s1.public_keys = some keys) :
    validate_rest env tok decode s1 now fc1 cont
      = (.err (.Other "Invalid token. Invalid algorithm in header."),
         s1, fc1) := by
  unfold validate_rest
  simp [hhdr, hkid, hkeys, halg]

/-! The claims. -/

/-- Claim C1, counterexample: a token whose header declares HS256 and
carries no `kid`, validated against a fresh state holding a key list, is
rejected with the missing-`kid` error — not with the algorithm-mismatch
error — by both `validate_token` and `validate_custom`.  The `kid`
extraction of the `let key = match` block runs before the RS256 pin. -/
theorem missing_kid_beats_alg_check :
    tokHS256NoKid.header = .ok { alg := .HS256, kid := none }
    ∧ (validate_token envA tokHS256NoKid stateWithA 0 0).1
        = .err (.Other "No `kid` in token.")
    ∧ (validate_custom envA tokHS256NoKid tokHS256NoKid.decodeDefault
        stateWithA 0 0).1
        = .err (.Other "No `kid` in token.") := by
  refine ⟨rfl, by decide, by decide⟩

/-- Claim C1, amended: when the decoded header declares an algorithm other
than the pinned RS256 and does carry a `kid`, and a key list is stored (no
staleness refresh intervening), `validate_token` and `validate_custom`
fail with the algorithm-mismatch error regardless of whether the `kid`
matches any stored thumbprint — the key-lookup result is never consumed.
A missing `kid`, however, fails with the `kid` error first. -/
theorem alg_mismatch_rejected_when_kid_present {T : Type} (env : Env)
    (tok : TokenOracle) (decode : List Nat → Except AuthErr T)
    (s : AzureAuth) (now : Int) (fc : Nat) (hdr : JwtHeader) (kid : String)
    (keys : List KeyPairs)
    (hhdr : tok.header = .ok hdr) (halg : hdr.alg ≠ .RS256)
    (hkid : hdr.kid = some kid)
    (hfresh : is_keys_valid s now = true ∨ s.is_offline = true)
    (hkeys : s.public_keys = some keys) :
    validate_token env tok s now fc
      = (.err (.Other "Invalid token. Invalid algorithm in header."), s, fc)
    ∧ validate_custom env tok decode s now fc
      = (.err (.Other "Invalid token. Invalid algorithm in header."),
         s, fc) := by
  have hcond : (!(is_keys_valid s now) && !s.is_offline) = false := by
    rcases hfresh with h | h <;> simp [h]
  constructor
  · have e1 : validate_token env tok s now fc
        = validate_body env tok tok.decodeDefault s now fc
            (fun s2 fc2 => validate_aux 1 env tok s2 now fc2) := rfl
    rw [e1, validate_body_no_step1 env tok tok.decodeDefault s now fc _ hcond]
    exact validate_rest_alg_mismatch env tok tok.decodeDefault s now fc _
      hdr kid keys hhdr halg hkid hkeys
  · have e1 : validate_custom env tok decode s now fc
        = validate_body env tok decode s now fc
            (fun s2 fc2 => validate_token env tok s2 now fc2) := rfl
    rw [e1, validate_body_no_step1 env tok decode s now fc _ hcond]
    exact validate_rest_alg_mismatch env tok decode s now fc _
      hdr kid keys hhdr halg hkid hkeys

/-- Claim C1, witness: a concrete HS256 token with unknown `kid` `"Z"`
against a fresh state holding key `"A"` fails with the algorithm error. -/
theorem alg_mismatch_rejected_when_kid_present_witness :
    validate_token envA tokHS256KidZ stateWithA 0 0
      = (.err (.Other "Invalid token. Invalid algorithm in header."),
         stateWithA, 0) :=
  (alg_mismatch_rejected_when_kid_present envA tokHS256KidZ
    tokHS256KidZ.decodeDefault stateWithA 0 0
    { alg := .HS256, kid := some "Z" } "Z" [keyA] rfl (by decide) rfl
    (Or.inl (by decide)) rfl).1

/-- Claim C2 (code bug): on the retry path, when the single refresh brings
in the matching key and the token is otherwise valid, the recursive
`self.validate_token(token)?` succeeds, its result is discarded by `?`,
and execution falls into `unreachable!()` — the call panics instead of
returning the decoded claims.  Here: a fresh state whose key list misses
`"A"`, a valid RS256 token for key `"A"`, 2 hours since the last refresh
(so `should_retry` holds), and a JWKS endpoint now serving key `"A"`. -/
theorem retry_success_hits_unreachable :
    should_retry baseState 7200 = true
    ∧ envA.fetch 0 = .ok { keys := [keyA] }
    ∧ tokA.decodeDefault [1] = .ok sampleClaims
    ∧ (validate_token envA tokA baseState 7200 0).1
        = .panic "internal error: entered unreachable code"
    ∧ (validate_token envA tokA baseState 7200 0).2.2 = 1 := by
  refine ⟨by decide, rfl, rfl, by decide, by decide⟩

/-- Claim C3 (code bug): `should_retry` never consults `retry_option`, so
after `set_no_retry` a state that is online, has a refresh timestamp more
than an hour old and a zero retry counter still reports `should_retry =
true`, and a key miss will still trigger an automatic refresh-and-retry —
contradicting the struct documentation of `set_no_retry`. -/
theorem should_retry_ignores_set_no_retry :
    (set_no_retry baseState).retry_option = false
    ∧ should_retry (set_no_retry baseState) 7200 = true
    ∧ (validate_token envA tokA (set_no_retry baseState) 7200 0).2.2 = 1 := by
  refine ⟨rfl, by decide, by decide⟩

/-- Claim C4 (confirmed): in offline mode no validation call ever invokes
`refresh_pub_keys` — the fetch counter is unchanged by `validate_token`
and `validate_custom`, however stale the cached keys are: the staleness
branch is guarded by `!self.is_offline` and `should_retry` returns `false`
when offline. -/
theorem offline_never_refreshes {T : Type} (env : Env) (tok : TokenOracle)
    (decode : List Nat → Except AuthErr T) (s : AzureAuth) (now : Int)
    (fc : Nat) (hoff : s.is_offline = true) :
    (validate_token env tok s now fc).2.2 = fc
    ∧ (validate_custom env tok decode s now fc).2.2 = fc := by
  have h1 : (!(is_keys_valid s now) && !s.is_offline) = false := by
    simp [hoff]
  have h2 : should_retry s now = false := by
    simp [should_retry, hoff]
  constructor
  · have e1 : validate_token env tok s now fc
        = validate_body env tok tok.decodeDefault s now fc
            (fun s2 fc2 => validate_aux 1 env tok s2 now fc2) := rfl
    rw [e1]
    exact validate_body_fc_no_refresh env tok tok.decodeDefault s now fc _
      h1 h2
  · exact validate_body_fc_no_refresh env tok decode s now fc _ h1 h2

/-- Claim C4, witness: an offline state with keys 11 days stale performs no
fetch during validation. -/
theorem offline_never_refreshes_witness :
    (validate_token envDown tokA offState 999999 0).2.2 = 0 :=
  (offline_never_refreshes envDown tokA tokA.decodeDefault offState
    999999 0 rfl).1

/-- Claim C5 (confirmed): at most one automatic refresh per rolling hour.
A call that finds the key set stale (and is online) performs exactly one
refresh attempt — never two, since a successful staleness refresh stamps
`last_refresh := now` and `should_retry` then fails its one-hour test.  A
call within an hour of `last_refresh` (with the expiration window at its
default of at least one hour) performs no refresh at all.  And every
successful refresh stamps `last_refresh` to the current time, closing the
hour window. -/
theorem retry_refresh_once_per_hour (env : Env) (tok : TokenOracle)
    (s : AzureAuth) (now : Int) (fc : Nat) (lr : Int) :
    (is_keys_valid s now = false → s.is_offline = false →
       (validate_token env tok s now fc).2.2 = fc + 1)
    ∧ (s.last_refresh = some lr → now - lr ≤ 3600 → 1 ≤ s.exp_hours →
       (validate_token env tok s now fc).2.2 = fc)
    ∧ (∀ ks, env.fetch fc = .ok ks →
       (refresh_pub_keys env s now fc).1.last_refresh = some now) := by
  have e1 : validate_token env tok s now fc
      = validate_body env tok tok.decodeDefault s now fc
          (fun s2 fc2 => validate_aux 1 env tok s2 now fc2) := rfl
  refine ⟨fun h1 h2 => ?_, fun hlr hle hexp => ?_, fun ks hf => ?_⟩
  · rw [e1]
    exact validate_body_fc_stale_online env tok tok.decodeDefault s now fc _
      h1 h2
  · have hle2 : now - lr ≤ 3600 * s.exp_hours := by nlinarith
    have hkv : is_keys_valid s now = true := by
      simp [is_keys_valid, hlr, hle2]
    have hng : ¬(3600 < now - lr) := by omega
    have hsr : should_retry s now = false := by
      unfold should_retry
      split
      · rfl
      · simp [hlr, decide_eq_false hng]
    rw [e1]
    exact validate_body_fc_no_refresh env tok tok.decodeDefault s now fc _
      (by simp [hkv]) hsr
  · simp [refresh_pub_keys, hf]

/-- Claim C5, witness: a stale online call fetches exactly once; a call one
hour after the last refresh fetches nothing; a successful refresh stamps
the timestamp. -/
theorem retry_refresh_once_per_hour_witness :
    (validate_token envDown tokA baseState 90000 0).2.2 = 1
    ∧ (validate_token envA tokA baseState 3600 0).2.2 = 0
    ∧ (refresh_pub_keys envA baseState 7200 0).1.last_refresh = some 7200 := by
  refine ⟨?_, ?_, ?_⟩
  · exact (retry_refresh_once_per_hour envDown tokA baseState 90000 0 0).1
      (by decide) (by decide)
  · exact (retry_refresh_once_per_hour envA tokA baseState 3600 0 0).2.1
      rfl (by decide) (by decide)
  · exact (retry_refresh_once_per_hour envA tokA baseState 7200 0 0).2.2
      { keys := [keyA] } rfl

/-- Claim C6 (confirmed): `refresh_pub_keys` assigns `last_refresh` and
`public_keys` only after both the fetch and the parse succeed: on failure
the state is returned exactly as it was and the error is surfaced; on
success both fields are replaced wholesale. -/
theorem refresh_failure_preserves_state (env : Env) (s : AzureAuth)
    (now : Int) (fc : Nat) :
    (∀ e, env.fetch fc = .error e →
       refresh_pub_keys env s now fc = (s, .error e, fc + 1))
    ∧ (∀ ks, env.fetch fc = .ok ks →
       refresh_pub_keys env s now fc =
         ({ s with last_refresh := some now, public_keys := some ks.keys },
          .ok (), fc + 1)) := by
  constructor <;> intro x hx <;> simp [refresh_pub_keys, hx]

/-- Claim C6, witness: a concrete failed fetch leaves the concrete state
untouched and returns the connection error. -/
theorem refresh_failure_preserves_state_witness :
    refresh_pub_keys envDown baseState 7200 0
      = (baseState, .error (.ConnectionError "connection refused"), 1) :=
  (refresh_failure_preserves_state envDown baseState 7200 0).1 _ rfl

/-- Claim C7 (confirmed): key matching is first-match by exact `x5t`
equality — the empty list matches nothing, a cons matches its head exactly
when the head thumbprint equals the `kid` and otherwise recurses, and the
lookup is `none` exactly when no record thumbprint equals the `kid`. -/
theorem matchKey_first_exact_thumbprint (kid : String) (k : KeyPairs)
    (ks keys : List KeyPairs) :
    matchKey [] kid = none
    ∧ matchKey (k :: ks) kid
        = (if k.x5t = kid then some k else matchKey ks kid)
    ∧ (matchKey keys kid = none ↔ ∀ k2 ∈ keys, k2.x5t ≠ kid) := by
  refine ⟨rfl, ?_, ?_⟩
  · by_cases h : k.x5t = kid <;> simp [matchKey, List.find?_cons, h]
  · simp [matchKey, List.find?_eq_none]

/-- Claim C8 (confirmed): under the cache-consistency invariant,
`is_keys_valid` holds exactly when a key set exists and the time since it
was stamped is at most the configured window; the check is a pure function
of the state and the current time, recomputed on every call.  (The source
tests `last_refresh`, which the invariant ties to the key set.) -/
theorem is_keys_valid_iff_fresh_keyset (s : AzureAuth) (now : Int)
    (hinv : Inv s) :
    is_keys_valid s now = true ↔
      ∃ ks t, s.public_keys = some ks ∧ s.last_refresh = some t ∧
        now - t ≤ 3600 * s.exp_hours := by
  unfold is_keys_valid
  cases hlr : s.last_refresh with
  | none =>
    have hpk : s.public_keys = none := by
      unfold Inv at hinv
      rw [hlr] at hinv
      simpa using hinv
    simp [hpk]
  | some t =>
    have hpk : ∃ ks, s.public_keys = some ks := by
      unfold Inv at hinv
      rw [hlr] at hinv
      cases hpk2 : s.public_keys with
      | none => rw [hpk2] at hinv; simp at hinv
      | some ks => exact ⟨ks, rfl⟩
    obtain ⟨ks, hks⟩ := hpk
    simp [hks]

/-- Claim C8, witness: a state holding a key stamped at time 0 is fresh at
time 0. -/
theorem is_keys_valid_iff_fresh_keyset_witness :
    is_keys_valid stateWithA 0 = true :=
  (is_keys_valid_iff_fresh_keyset stateWithA 0 rfl).mpr
    ⟨[keyA], 0, rfl, rfl, by decide⟩

/-- Claim C9 (confirmed): every operation preserves the invariant that a
key list is stored exactly when a refresh timestamp is — `new` starts with
neither, `new_offline` with both, `refresh_pub_keys` and `set_public_keys`
assign both together, and both validation entry points only ever produce
states built by those assignments; consequently a state that reports fresh
necessarily holds keys. -/
theorem state_invariant_preserved {T : Type} (env : Env) (tok : TokenOracle)
    (decode : List Nat → Except AuthErr T) (s0 : AzureAuth) (now : Int)
    (fc : Nat) (aud : String) (jf : Except AuthErr String)
    (pks : List KeyPairs) (s1 s2 : AzureAuth) :
    (new aud jf = .ok s1 → Inv s1)
    ∧ (new_offline aud jf pks now = .ok s2 → Inv s2)
    ∧ (Inv s0 → Inv (refresh_pub_keys env s0 now fc).1)
    ∧ Inv (set_public_keys s0 pks now)
    ∧ (Inv s0 → Inv (validate_token env tok s0 now fc).2.1)
    ∧ (Inv s0 → Inv (validate_custom env tok decode s0 now fc).2.1)
    ∧ (Inv s0 → is_keys_valid s0 now = true →
        ∃ ks, s0.public_keys = some ks) := by
  refine ⟨?_, ?_, ?_, ?_, ?_, ?_, ?_⟩
  · intro h
    cases jf with
    | error e => simp [new] at h
    | ok uri =>
      simp only [new, Except.ok.injEq] at h
      subst h
      rfl
  · intro h
    cases jf with
    | error e => simp [new_offline] at h
    | ok uri =>
      simp only [new_offline, Except.ok.injEq] at h
      subst h
      rfl
  · exact refresh_inv env s0 now fc
  · rfl
  · exact fun hs => validate_aux_inv 2 env tok s0 now fc hs
  · exact fun hs => validate_body_inv env tok decode s0 now fc _ hs
      (fun s3 fc3 h3 => validate_aux_inv 2 env tok s3 now fc3 h3)
  · intro hs hkv
    cases hpk : s0.public_keys with
    | some ks => exact ⟨ks, rfl⟩
    | none =>
      unfold Inv at hs
      rw [hpk] at hs
      unfold is_keys_valid at hkv
      cases hlr : s0.last_refresh with
      | none => rw [hlr] at hkv; cases hkv
      | some t => rw [hlr] at hs; simp at hs

/-- Claim C9, witness: after a validate call that performed a
refresh-and-retry, the resulting state still satisfies the invariant. -/
theorem state_invariant_preserved_witness :
    Inv (validate_token envA tokA baseState 7200 0).2.1 :=
  (state_invariant_preserved envA tokA tokA.decodeDefault baseState 7200 0
    "aud" (.ok "uri") [] baseState baseState).2.2.2.2.1 rfl

/-- Claim C10, counterexample: 2 hours after `set_public_keys` (well
within the default 24h expiration window), a validate call on an online
validator whose key list misses the token `kid` does trigger an automatic
network refresh (the fetch counter rises from 0 to 1) — the retry-on-miss
branch is not disabled by a recent manual key set. -/
theorem refresh_within_window_after_set_keys :
    (set_public_keys baseState [] 0).is_offline = false
    ∧ is_keys_valid (set_public_keys baseState [] 0) 7200 = true
    ∧ (validate_token envDown tokA (set_public_keys baseState [] 0)
        7200 0).2.2 = 1 := by
  refine ⟨rfl, by decide, by decide⟩

/-- Claim C10, amended: `set_public_keys` replaces the key list and stamps
`last_refresh` to the current time, leaving every other field unchanged;
with a nonnegative expiration window the state is immediately fresh and
stays fresh for the whole window (so no staleness-triggered refresh can
occur); and during the first hour after the call no validate-triggered
refresh of any kind occurs.  After that first hour a key-lookup miss may
still trigger the retry refresh, as the counterexample shows. -/
theorem set_public_keys_frame (s : AzureAuth) (pks : List KeyPairs)
    (now now2 : Int) :
    set_public_keys s pks now
      = { s with public_keys := some pks, last_refresh := some now }
    ∧ (0 ≤ s.exp_hours →
       is_keys_valid (set_public_keys s pks now) now = true)
    ∧ (now2 - now ≤ 3600 * s.exp_hours →
       is_keys_valid (set_public_keys s pks now) now2 = true)
    ∧ (∀ env tok fc, now2 - now ≤ 3600 * s.exp_hours →
       now2 - now ≤ 3600 →
       (validate_token env tok (set_public_keys s pks now) now2 fc).2.2
         = fc) := by
  refine ⟨rfl, fun h => ?_, fun h => ?_, fun env tok fc h1 h2 => ?_⟩
  · have h2 : now - now ≤ 3600 * s.exp_hours := by
      have := mul_nonneg (by norm_num : (0:Int) ≤ 3600) h
      omega
    simp only [is_keys_valid, set_public_keys, decide_eq_true_eq]
    exact h2
  · simp [is_keys_valid, set_public_keys, h]
  · have hkv : is_keys_valid (set_public_keys s pks now) now2 = true := by
      simp [is_keys_valid, set_public_keys, h1]
    have hng : ¬(3600 < now2 - now) := by omega
    have hsr : should_retry (set_public_keys s pks now) now2 = false := by
      unfold should_retry set_public_keys
      split
      · rfl
      · simp [decide_eq_false hng]
    have e1 : validate_token env tok (set_public_keys s pks now) now2 fc
        = validate_body env tok tok.decodeDefault
            (set_public_keys s pks now) now2 fc
            (fun s2 fc2 => validate_aux 1 env tok s2 now2 fc2) := rfl
    rw [e1]
    exact validate_body_fc_no_refresh env tok tok.decodeDefault _ now2 fc _
      (by simp [hkv]) hsr

/-- Claim C10, witness: immediately after a concrete `set_public_keys` the
cache is fresh, and a validate call 1000 seconds later fetches nothing. -/
theorem set_public_keys_frame_witness :
    is_keys_valid (set_public_keys baseState [keyA] 5) 5 = true
    ∧ (validate_token envA tokA (set_public_keys baseState [keyA] 5)
        1000 0).2.2 = 0 := by
  constructor
  · exact (set_public_keys_frame baseState [keyA] 5 5).2.1 (by decide)
  · exact (set_public_keys_frame baseState [keyA] 5 1000).2.2.2 envA tokA 0
      (by decide) (by decide)

end AzureJwt
